/-
  Verification of the grizzly execution core (runner / session / helpers).

  Shallow embedding of:
    - src/grizzly/common/runner.py  (_IdleChecker, Runner, RunResult)
    - src/grizzly/session.py       (LogOutputLimiter, Session.run)

  Conventions of the embedding:
    - wall-clock time is an integer number of seconds (`Int`); every call that
      reads the clock in the source takes the current time as an argument;
    - collaborators that live outside the modelled core (the target, the
      serving layer, the adapter, the test case) are represented by oracle
      values supplied per call: the outcome of `Target.launch`, the outcome of
      `Sapphire.serve_path`, the outcome of `Target.detect_failure`, ...;
    - Python `assert` statements become `Option`/branching: a violated
      assertion is `none` (abort), never a normal return value;
    - filesystem side effects (mkdtemp / rmtree) are recorded as explicit
      event traces.
-/
import Mathlib

/-! ## _IdleChecker (src/grizzly/common/runner.py lines 26-73) -/

/-- State of `_IdleChecker`.  The callback `_check_cb` is passed at call time
(it is a function, hence always "callable"); `_next_poll` is `none` until
`schedule_poll` has run, matching the Python `None` initial value. -/
structure IdleChecker where
  init_delay : Int
  poll_delay : Int
  threshold : Int
  next_poll : Option Int
deriving DecidableEq

/-- Python `_IdleChecker.__init__`: the asserts `initial_delay >= 0`,
`poll_delay >= 0`, `100 > threshold >= 0` become `Option` guards
(`none` = assertion failure / abort). -/
def mkIdleChecker (threshold initial_delay poll_delay : Int) : Option IdleChecker :=
  if 0 ≤ initial_delay then
    if 0 ≤ poll_delay then
      if threshold < 100 ∧ 0 ≤ threshold then
        some { init_delay := initial_delay, poll_delay := poll_delay,
               threshold := threshold, next_poll := none }
      else none
    else none
  else none

/-- Python `_IdleChecker.schedule_poll(initial, now)`: sets `_next_poll` to
`now + _init_delay` when `initial`, else `now + _poll_delay`. -/
def IdleChecker.schedule_poll (s : IdleChecker) (initial : Bool) (now : Int) : IdleChecker :=
  if initial then { s with next_poll := some (now + s.init_delay) }
  else { s with next_poll := some (now + s.poll_delay) }

/-- Python `_IdleChecker.is_idle()`.  Returns `none` when the precondition
`assert self._next_poll is not None` fails (abort), otherwise
`some (result, new state, whether the callback was invoked)`.
When `now >= _next_poll` the callback runs: `True` is returned as-is,
`False` reschedules the next poll at `now + _poll_delay`. -/
def IdleChecker.is_idle (s : IdleChecker) (cb : Int → Bool) (now : Int) :
    Option (Bool × IdleChecker × Bool) :=
  match s.next_poll with
  | none => none
  | some np =>
    if now ≥ np then
      if cb s.threshold then some (true, s, true)
      else some (false, s.schedule_poll false now, true)
    else some (false, s, false)

/-! ## Runner (src/grizzly/common/runner.py lines 76-237) -/

/-- The `Runner`-owned state: the optional idle checker and the
`_tests_run` counter ("number of tests run since target (re)launched").
The server and target handles are external collaborators. -/
structure Runner where
  idle : Option IdleChecker
  tests_run : Nat
deriving DecidableEq

/-- Outcome of one call to the external `Target.launch`:
`none` = success, `some e` = the raised exception. -/
inductive LaunchErr
  | targetLaunchError
  | targetLaunchTimeout
deriving DecidableEq

/-- Observable events of `Runner.launch`: a launch attempt (numbered in call
order), the `exc.report.cleanup()` done before retrying a
`TargetLaunchError`, and the `sleep(retry_delay)` between retries. -/
inductive LaunchEvent
  | attempt (idx : Nat)
  | cleanupReport (idx : Nat)
  | sleepRetry (delay : Int)
deriving DecidableEq

/-- Python `reversed(range(n))` = `[n-1, n-2, ..., 0]`. -/
def revRange : Nat → List Nat
  | 0 => []
  | n + 1 => n :: revRange n

/-- The `for retries in reversed(range(max_retries))` loop body of
`Runner.launch`.  `oracle i` is the outcome of the `i`-th call to
`Target.launch`.  Returns the event trace and `some e` when the loop
re-raises `e` (`if retries: ... continue` / `raise`), `none` when it exits
normally (success `break`, or the loop ran zero iterations). -/
def launchLoop (oracle : Nat → Option LaunchErr) (retry_delay : Int) :
    Nat → List Nat → List LaunchEvent × Option LaunchErr
  | _, [] => ([], none)
  | idx, retries :: rest =>
    match oracle idx with
    | none => ([LaunchEvent.attempt idx], none)
    | some LaunchErr.targetLaunchError =>
      if retries ≠ 0 then
        let r := launchLoop oracle retry_delay (idx + 1) rest
        (LaunchEvent.attempt idx :: LaunchEvent.cleanupReport idx ::
           LaunchEvent.sleepRetry retry_delay :: r.1, r.2)
      else ([LaunchEvent.attempt idx], some LaunchErr.targetLaunchError)
    | some LaunchErr.targetLaunchTimeout =>
      if retries ≠ 0 then
        let r := launchLoop oracle retry_delay (idx + 1) rest
        (LaunchEvent.attempt idx :: LaunchEvent.sleepRetry retry_delay :: r.1, r.2)
      else ([LaunchEvent.attempt idx], some LaunchErr.targetLaunchTimeout)

/-- Python `Runner.launch(location, env_mod, max_retries, retry_delay)`
(runner.py lines 90-130).  The assert `retry_delay >= 0` (line 106) becomes
an `Option` guard (`none` = assertion failure / abort; the assert
`max_retries >= 0` holds by the `Nat` type).  On normal loop exit
`self._tests_run = 0` runs; a re-raised exception propagates as
`Except.error`. -/
def Runner.launch (r : Runner) (oracle : Nat → Option LaunchErr)
    (max_retries : Nat) (retry_delay : Int) :
    Option (List LaunchEvent × Except LaunchErr Runner) :=
  if 0 ≤ retry_delay then
    let out := launchLoop oracle retry_delay 0 (revRange max_retries)
    match out.2 with
    | some e => some (out.1, Except.error e)
    | none => some (out.1, Except.ok { r with tests_run := 0 })
  else none

/-- Number of `Target.launch` calls recorded in a launch trace. -/
def countAttempts (tr : List LaunchEvent) : Nat :=
  (tr.filter (fun e => match e with
    | LaunchEvent.attempt _ => true
    | _ => false)).length

/-- Number of `sleep(retry_delay)` calls recorded in a launch trace. -/
def countSleeps (tr : List LaunchEvent) : Nat :=
  (tr.filter (fun e => match e with
    | LaunchEvent.sleepRetry _ => true
    | _ => false)).length

/-- Python `srv_path.lstrip("/")`: drop every leading `'/'`. -/
def stripLeadingSlashes (s : String) : String :=
  String.mk (s.data.dropWhile (fun c => c = '/'))

/-- Python `Runner.location` (runner.py lines 132-159).  The asserts
`close_after >= 0` and `timeout >= 0` become `Option` guards.  The URL is
`"http://127.0.0.1:%d/%s" % (srv_port, srv_path.lstrip("/"))`, then
`"?".join([location, "&".join(args)])` when any harness argument applies. -/
def Runner.location (srv_path : String) (srv_port : Nat)
    (close_after : Option Int := none) (forced_close : Bool := true)
    (timeout : Option Int := none) : Option String :=
  let loc := "http://127.0.0.1:" ++ toString srv_port ++ "/" ++ stripLeadingSlashes srv_path
  let args1 : Option (List String) :=
    match close_after with
    | none => some []
    | some c => if 0 ≤ c then some ["close_after=" ++ toString c] else none
  match args1 with
  | none => none
  | some a1 =>
    let a2 : List String := if forced_close then [] else ["forced_close=0"]
    let args3 : Option (List String) :=
      match timeout with
      | none => some []
      | some t => if 0 ≤ t then some ["timeout=" ++ toString (t * 1000)] else none
    match args3 with
    | none => none
    | some a3 =>
      let args := a1 ++ a2 ++ a3
      if args.isEmpty then some loc
      else some (loc ++ "?" ++ String.intercalate "&" args)

/-- The URL format as §6 of the spec words it: base
`http://127.0.0.1:<port>/<path>` optionally followed by
`?close_after=<int>&forced_close=0&timeout=<int*1000>`, directive order
fixed as listed, each directive present only if its source value is
non-default. -/
def locationSpec (srv_path : String) (srv_port : Nat)
    (close_after : Option Int) (forced_close : Bool) (timeout : Option Int) : String :=
  let base := "http://127.0.0.1:" ++ toString srv_port ++ "/" ++ stripLeadingSlashes srv_path
  let directives : List String :=
    (match close_after with
     | some c => ["close_after=" ++ toString c]
     | none => []) ++
    (if forced_close then [] else ["forced_close=0"]) ++
    (match timeout with
     | some t => ["timeout=" ++ toString (t * 1000)]
     | none => [])
  if directives.isEmpty then base
  else base ++ "?" ++ String.intercalate "&" directives

/-- Record `RunResult` (runner.py lines 240-252).  `status` is `none` /
`some RunResult.FAILED` / `some RunResult.IGNORED`. -/
structure RunResult where
  attempted : Bool
  duration : Int
  initial : Bool
  served : List String
  status : Option Nat
  timeout : Bool
deriving DecidableEq

def RunResult.FAILED : Nat := 1

def RunResult.IGNORED : Nat := 2

/-- Outcome of `Target.detect_failure(ignore, was_timeout)`. -/
inductive FailureOutcome
  | noFailure
  | failure
  | ignoredFailure
deriving DecidableEq

/-- The mapping from the failure-detection outcome to `RunResult.status`
performed at the end of `Runner.run` (runner.py lines 218-221). -/
def statusOfOutcome : FailureOutcome → Option Nat
  | FailureOutcome.failure => some RunResult.FAILED
  | FailureOutcome.ignoredFailure => some RunResult.IGNORED
  | FailureOutcome.noFailure => none

/-- Directory-level filesystem events performed by `Runner.run`. -/
inductive FsEvent
  | mkdir (d : String)
  | rmdir (d : String)
deriving DecidableEq

/-- Per-call external behaviour for `Runner.run`: the current time (used for
the initial idle poll), the name `mkdtemp` would return, the outcome of
`serve_path` (`Except.error` = an exception raised while serving,
`Except.ok (timed_out, served)` otherwise), the landing page of the test
case, the failure-detection outcome and the measured serve duration. -/
structure RunEnv where
  now : Int
  freshDir : String
  serve : Except Unit (Bool × List String)
  landingPage : String
  detect : FailureOutcome
  serveDuration : Int

/-- Everything observable from one `Runner.run` call: the returned
`RunResult` (or the re-raised serving exception), the updated runner state,
the directory events, whether `Target.close()` was called and whether
`Target.dump_coverage()` was called. -/
structure RunOut where
  result : Except Unit RunResult
  state : Runner
  fs : List FsEvent
  closedTarget : Bool
  coverageDumped : Bool

/-- Python `Runner.run` (runner.py lines 161-222).

Line-by-line correspondence:
  - `if self._idle is not None: self._idle.schedule_poll(initial=True)`;
  - `try:` with `test_path is None` → `mkdtemp` (the `mkdir` event) and
    `testcase.dump(wwwdir)` (file writes, not directory events), else the
    caller-owned `test_path` is used with no directory event;
  - `serve_path` (outcome from `env.serve`); the `finally:` block removes
    the scratch directory (the `rmdir` event) exactly when `test_path` is
    `None`, on the normal path and on the exception path alike;
  - `RunResult(served, duration, timeout=server_status == SERVED_TIMEOUT)`;
  - `add_batch` for served includes mutates only the test case (external);
  - `result.attempted = testcase.landing_page in result.served`;
  - `if result.attempted and coverage and not result.timeout: dump_coverage`;
  - `failure_detected = self._target.detect_failure(...)` (from `env.detect`);
  - `result.initial = self._tests_run == 0`;
  - `if not result.attempted: self._target.close()`
    `else: self._tests_run += 1`;
  - `status` set from `failure_detected` (`statusOfOutcome`). -/
def Runner.run (r : Runner) (env : RunEnv) (test_path : Option String)
    (coverage : Bool) : RunOut :=
  let r1 : Runner :=
    { r with idle := r.idle.map (fun ic => ic.schedule_poll true env.now) }
  let mkEvents : List FsEvent :=
    match test_path with
    | none => [FsEvent.mkdir env.freshDir]
    | some _ => []
  let rmEvents : List FsEvent :=
    match test_path with
    | none => [FsEvent.rmdir env.freshDir]
    | some _ => []
  match env.serve with
  | Except.error e =>
    { result := Except.error e, state := r1, fs := mkEvents ++ rmEvents,
      closedTarget := false, coverageDumped := false }
  | Except.ok (timedOut, served) =>
    let attempted : Bool := decide (env.landingPage ∈ served)
    let covDump : Bool := attempted && coverage && !timedOut
    let initial : Bool := r1.tests_run == 0
    let r2 : Runner :=
      if attempted then { r1 with tests_run := r1.tests_run + 1 } else r1
    { result := Except.ok
        { attempted := attempted, duration := env.serveDuration,
          initial := initial, served := served,
          status := statusOfOutcome env.detect, timeout := timedOut },
      state := r2, fs := mkEvents ++ rmEvents,
      closedTarget := !attempted, coverageDumped := covDump }

/-- A `RunEnv` whose serving step completes (no exception): used to model
sequences of `Runner.run` calls. -/
structure OkRunEnv where
  now : Int
  freshDir : String
  timedOut : Bool
  served : List String
  landingPage : String
  detect : FailureOutcome
  serveDuration : Int

def OkRunEnv.toEnv (e : OkRunEnv) : RunEnv :=
  { now := e.now, freshDir := e.freshDir,
    serve := Except.ok (e.timedOut, e.served),
    landingPage := e.landingPage, detect := e.detect,
    serveDuration := e.serveDuration }

/-- A sequence of `Runner.run` calls threading the runner state
(each with `test_path=None`, `coverage=False`). -/
def runSeq (r : Runner) : List OkRunEnv → List RunResult
  | [] => []
  | e :: rest =>
    let out := Runner.run r e.toEnv none false
    match out.result with
    | Except.ok res => res :: runSeq out.state rest
    | Except.error _ => []

/-! ## LogOutputLimiter (src/grizzly/session.py lines 27-53) -/

/-- State of `LogOutputLimiter`. -/
structure LogOutputLimiter where
  delay : Int
  iterations : Nat
  launches : Nat
  multiplier : Nat
  time : Int
  verbose : Bool
deriving DecidableEq

/-- Python `LogOutputLimiter.__init__(delay=300, delta_multiplier=2, verbose)`;
`self._time = time()` is the construction instant `now`. -/
def mkLogOutputLimiter (delay : Int) (delta_multiplier : Nat) (verbose : Bool)
    (now : Int) : LogOutputLimiter :=
  { delay := delay, iterations := 1, launches := 1,
    multiplier := delta_multiplier, time := now, verbose := verbose }

/-- Python `LogOutputLimiter.ready(cur_iter, launches)` (session.py lines 38-53).
Returns the boolean and the updated state.  The two `time()` reads of the
source (the elapsed-time test and the anchor reset) are both `now`. -/
def LogOutputLimiter.ready (st : LogOutputLimiter) (cur_iter launches : Nat)
    (now : Int) : Bool × LogOutputLimiter :=
  if st.verbose then (true, st)
  else
    let p : Bool × LogOutputLimiter :=
      if cur_iter ≥ st.iterations then
        (true, { st with iterations := st.iterations * st.multiplier })
      else if launches ≥ st.launches then (true, st)
      else if now - st.delay ≥ st.time then (true, st)
      else (false, st)
    if p.1 then (true, { p.2 with time := now, launches := launches + 1 })
    else (false, p.2)

/-! ## Session (src/grizzly/session.py lines 56-223) -/

/-- The fields of the external `Status` object that `Session.run` mutates. -/
structure Status where
  iteration : Nat
  results : Nat
  ignored : Nat
  log_size : Int
deriving DecidableEq

/-- The session state threaded through the `Session.run` loop: the status
counters, whether the target is currently closed (`self.target.closed`;
launching opens it, `Target.close()` / `check_relaunch` close it) and the
`Runner` created at the top of `Session.run`. -/
structure Session where
  status : Status
  targetClosed : Bool
  runner : Runner
deriving DecidableEq

/-- Constant `TARGET_LOG_SIZE_WARN = 0x1900000` (25MB). -/
def TARGET_LOG_SIZE_WARN : Int := 0x1900000

/-- Observable events of one `Session.run` iteration. -/
inductive SEvent
  | logNotServed
  | warnMissingLandingPage
  | mkdirLogs (d : String)
  | saveLogs (d : String)
  | reportResult
  | logIgnored
  | warnLargeLogs
deriving DecidableEq

/-- External behaviour of one loop iteration: whether `runner.launch` (when
the target is closed) exhausts its retries and raises; the `Runner.run`
oracle; whether `current_test.contains(landing_page)` is false; the fresh
directory `mkdtemp(prefix="error_")` would return; `adapter.remaining`;
whether `target.check_relaunch()` closes the target; `target.log_size()`. -/
structure IterEnv where
  launchRaises : Bool
  run : RunEnv
  testMissingLanding : Bool
  errDir : String
  remaining : Option Int
  relaunchCloses : Bool
  logSize : Int

/-- Result of one iteration of the `while True:` body of `Session.run`. -/
inductive StepRes
  | fatal (tr : List SEvent)
  | launchFailed
  | serveError
  | stop (why : Bool) (st : Session) (tr : List SEvent)
  | next (st : Session) (tr : List SEvent)
deriving DecidableEq

/-- Here `stop true` = the `adapter.remaining` break ("Replay Complete");
`stop false` = the iteration-limit break ("Hit iteration limit"). -/
def StepRes.replayComplete : Bool := true

def StepRes.hitLimit : Bool := false

/-- The result-processing block of `Session.run` (session.py lines 200-206):
`if result.status == RunResult.FAILED:` run `report_result()` (which ends in
`status.count_result`, the `results` tally) — `elif == RunResult.IGNORED:`
`status.ignored += 1`. -/
def processResultStatus (st : Session) (status : Option Nat) :
    Session × List SEvent :=
  if status = some RunResult.FAILED then
    ({ st with status := { st.status with results := st.status.results + 1 } },
     [SEvent.reportResult])
  else if status = some RunResult.IGNORED then
    ({ st with status := { st.status with ignored := st.status.ignored + 1 } },
     [SEvent.logIgnored])
  else (st, [])

/-- The tail of one `Session.run` iteration, from the result-processing
block on (session.py lines 200-223): `processResultStatus`, then
`target.check_relaunch()` (which may close the target), then the
`remaining < 1` break, the `iteration == iteration_limit` break, and
finally the log-size read and 25MB warning before the next iteration. -/
def stepTail (limit : Option Nat) (stC : Session) (env : IterEnv)
    (status : Option Nat) (notServedTr : List SEvent) : StepRes :=
  let pr : Session × List SEvent := processResultStatus stC status
  let stD : Session :=
    { pr.1 with targetClosed := pr.1.targetClosed || env.relaunchCloses }
  if (match env.remaining with
      | some n => decide (n < 1)
      | none => false) then
    StepRes.stop StepRes.replayComplete stD (notServedTr ++ pr.2)
  else if limit = some stD.status.iteration then
    StepRes.stop StepRes.hitLimit stD (notServedTr ++ pr.2)
  else
    let stE : Session :=
      { stD with status := { stD.status with log_size := env.logSize } }
    let warnTr : List SEvent :=
      if stE.status.log_size > TARGET_LOG_SIZE_WARN then
        [SEvent.warnLargeLogs]
      else []
    StepRes.next stE (notServedTr ++ pr.2 ++ warnTr)

/-- One iteration of the `while True:` loop of `Session.run`
(session.py lines 139-223).

Correspondence:
  - `self.status.iteration += 1`;
  - `if self.target.closed:` → purge/pre-launch/location (external) and
    `runner.launch(location, max_retries=3, retry_delay=0)`: a raised launch
    error propagates (`StepRes.launchFailed`), success resets
    `runner._tests_run` to 0 and opens the target;
  - `target.step()`, `generate_testcase()`, `display_status()` (external);
  - `result = runner.run(...)`: a serving exception propagates
    (`StepRes.serveError`); the runner may close the target
    (`out.closedTarget`);
  - `on_timeout` / `on_served` (external);
  - `if result.attempted:` test-case bookkeeping (external) —
    `else:` log "Test case was not served", warn when the test case lacks
    its landing page, and `if result.initial:` save logs to a fresh
    directory and `raise SessionError(...)` (`StepRes.fatal`);
  - `if result.status == RunResult.FAILED:` `report_result()` (the
    `results` tally) — `elif == RunResult.IGNORED:` `ignored += 1`;
  - `self.target.check_relaunch()`;
  - the `remaining < 1` break, then the `iteration == iteration_limit`
    break;
  - `self.status.log_size = self.target.log_size()` and the 25MB warning. -/
def Session.step (limit : Option Nat) (coverage : Bool) (st : Session)
    (env : IterEnv) : StepRes :=
  let stA : Session :=
    { st with status := { st.status with iteration := st.status.iteration + 1 } }
  if stA.targetClosed && env.launchRaises then StepRes.launchFailed
  else
    let stB : Session :=
      if stA.targetClosed then
        { stA with targetClosed := false,
                   runner := { stA.runner with tests_run := 0 } }
      else stA
    let out := Runner.run stB.runner env.run none coverage
    match out.result with
    | Except.error _ => StepRes.serveError
    | Except.ok result =>
      let stC : Session :=
        { stB with runner := out.state,
                   targetClosed := stB.targetClosed || out.closedTarget }
      let notServedTr : List SEvent :=
        if result.attempted then []
        else SEvent.logNotServed ::
          (if env.testMissingLanding then [SEvent.warnMissingLandingPage] else [])
      if !result.attempted && result.initial then
        StepRes.fatal (notServedTr ++
          [SEvent.mkdirLogs env.errDir, SEvent.saveLogs env.errDir])
      else
        stepTail limit stC env result.status notServedTr

/-- How `Session.run` ended. -/
inductive SessTermination
  | fatal (tr : List SEvent)
  | launchFailed
  | serveError
  | stopped (why : Bool) (st : Session)
  | fuelOut (st : Session)
deriving DecidableEq

/-- Python `Session.run(ignore, iteration_limit, display_mode)`: the `while True:`
loop, one `IterEnv` consumed per iteration (the list supplies the external
world; when it is exhausted the loop is still running: `fuelOut`). -/
def Session.run (limit : Option Nat) (coverage : Bool) (st : Session) :
    List IterEnv → SessTermination
  | [] => SessTermination.fuelOut st
  | env :: rest =>
    match Session.step limit coverage st env with
    | StepRes.fatal tr => SessTermination.fatal tr
    | StepRes.launchFailed => SessTermination.launchFailed
    | StepRes.serveError => SessTermination.serveError
    | StepRes.stop why st2 _ => SessTermination.stopped why st2
    | StepRes.next st2 _ => Session.run limit coverage st2 rest

/-- When a `Session.run` ended with the iteration-limit break, the final
iteration counter; `none` otherwise. -/
def hitLimitIter : SessTermination → Option Nat
  | SessTermination.stopped why st => if why = StepRes.hitLimit then some st.status.iteration else none
  | _ => none

/-- Whether a `Session.run` ended with the iteration-limit break. -/
def isHitLimit (t : SessTermination) : Bool :=
  (hitLimitIter t).isSome

/-- The value `result.initial` of the `Runner.run` call an iteration will perform: the
per-launch counter as it stands when `runner.run` is reached (0 when the
iteration begins with a (re)launch). -/
def effTestsRun (st : Session) : Nat :=
  if st.targetClosed then 0 else st.runner.tests_run

/-- Whether a step result lets the loop proceed to the next iteration. -/
def StepRes.isNext : StepRes → Bool
  | StepRes.next _ _ => true
  | _ => false

/-- The events recorded by a step result. -/
def StepRes.trOf : StepRes → List SEvent
  | StepRes.fatal tr => tr
  | StepRes.stop _ _ tr => tr
  | StepRes.next _ tr => tr
  | _ => []

/-! ## Concrete instances used by counterexamples and witnesses -/

/-- A `Runner.run` oracle whose serving step succeeds but does not serve the
landing page, while failure detection reports a failure. -/
def c1env : RunEnv :=
  { now := 0, freshDir := "d", serve := Except.ok (false, ["other.html"]),
    landingPage := "index.html", detect := FailureOutcome.failure,
    serveDuration := 0 }

/-- Two consecutive `Runner.run` calls after a launch: the first does not
serve the landing page (unattempted), the second does. -/
def c3envs : List OkRunEnv :=
  [ { now := 0, freshDir := "d1", timedOut := false, served := ["other.html"],
      landingPage := "index.html", detect := FailureOutcome.noFailure,
      serveDuration := 0 },
    { now := 0, freshDir := "d2", timedOut := false, served := ["index.html"],
      landingPage := "index.html", detect := FailureOutcome.noFailure,
      serveDuration := 0 } ]

/-- A session state one iteration after start: target open, one prior
attempted delivery since launch. -/
def c4st : Session :=
  { status := { iteration := 1, results := 0, ignored := 0, log_size := 0 },
    targetClosed := false,
    runner := { idle := none, tests_run := 1 } }

/-- A session state at session start: counter 0, target closed. -/
def c4stFresh : Session :=
  { status := { iteration := 0, results := 0, ignored := 0, log_size := 0 },
    targetClosed := false,
    runner := { idle := none, tests_run := 0 } }

/-- An iteration whose delivery is not attempted (landing page not served). -/
def c4env : IterEnv :=
  { launchRaises := false,
    run := { now := 0, freshDir := "d", serve := Except.ok (false, []),
             landingPage := "index.html", detect := FailureOutcome.noFailure,
             serveDuration := 0 },
    testMissingLanding := false, errDir := "e", remaining := none,
    relaunchCloses := false, logSize := 0 }

/-- A benign iteration: launch (if needed) succeeds, the landing page is
served, no failure detected, no stop condition. -/
def c10env : IterEnv :=
  { launchRaises := false,
    run := { now := 0, freshDir := "d", serve := Except.ok (false, ["index.html"]),
             landingPage := "index.html", detect := FailureOutcome.noFailure,
             serveDuration := 0 },
    testMissingLanding := false, errDir := "e", remaining := none,
    relaunchCloses := false, logSize := 0 }

/-- A fresh session state: counter 0, target closed (initial launch needed). -/
def c10st : Session :=
  { status := { iteration := 0, results := 0, ignored := 0, log_size := 0 },
    targetClosed := true,
    runner := { idle := none, tests_run := 0 } }

/-! ## Theorems -/

/-- Claim C6: for every `_IdleChecker` with initial delay `d` and poll delay
`p`, after `schedule_poll(initial=True)` at time `t0`, an `is_idle` call at a
time earlier than `t0 + d` returns `False` without invoking the idle
predicate; a call at or after `t0 + d` invokes the predicate, returns `True`
when the predicate returns `True`, and otherwise reschedules the next poll
`p` seconds after the call and returns `False`. -/
theorem idleChecker_throttle (s0 : IdleChecker) (cb : Int → Bool) (t0 t : Int) :
    (t < t0 + s0.init_delay →
      (s0.schedule_poll true t0).is_idle cb t
        = some (false, s0.schedule_poll true t0, false)) ∧
    (t0 + s0.init_delay ≤ t →
      (cb s0.threshold = true →
        (s0.schedule_poll true t0).is_idle cb t
          = some (true, s0.schedule_poll true t0, true)) ∧
      (cb s0.threshold = false →
        (s0.schedule_poll true t0).is_idle cb t
          = some (false, (s0.schedule_poll true t0).schedule_poll false t, true))) := by
  refine ⟨fun h => ?_, fun h => ⟨fun hcb => ?_, fun hcb => ?_⟩⟩
  · have hlt : ¬ t0 + s0.init_delay ≤ t := by omega
    simp [IdleChecker.is_idle, IdleChecker.schedule_poll, hlt]
  · simp [IdleChecker.is_idle, IdleChecker.schedule_poll, hcb, h]
  · simp [IdleChecker.is_idle, IdleChecker.schedule_poll, hcb, h]

/-- Witness for C6 at the spec's own example: `initial_delay = 5`,
`schedule_poll(initial=True)` at `t = 0`; `is_idle` at `t = 3` does not
invoke the predicate and returns `False`; at `t = 6` it invokes it (and,
the predicate being `False`, reschedules to `6 + poll_delay`). -/
theorem idleChecker_throttle_witness :
    (3 : Int) < 0 + 5 ∧
    IdleChecker.is_idle (IdleChecker.schedule_poll ⟨5, 1, 0, none⟩ true 0)
        (fun _ => false) 3
      = some (false, IdleChecker.schedule_poll ⟨5, 1, 0, none⟩ true 0, false) ∧
    IdleChecker.is_idle (IdleChecker.schedule_poll ⟨5, 1, 0, none⟩ true 0)
        (fun _ => false) 6
      = some (false,
          (IdleChecker.schedule_poll ⟨5, 1, 0, none⟩ true 0).schedule_poll false 6,
          true) :=
  ⟨by decide,
   (idleChecker_throttle ⟨5, 1, 0, none⟩ (fun _ => false) 0 3).1 (by decide),
   ((idleChecker_throttle ⟨5, 1, 0, none⟩ (fun _ => false) 0 6).2 (by decide)).2 rfl⟩

/-- Claim C9: `_IdleChecker` construction succeeds exactly when the
threshold lies in `[0, 100)` and both delays are non-negative (so any
threshold `≥ 100`, negative threshold, or negative delay aborts), and
`is_idle` called before any `schedule_poll` is a precondition violation
that aborts (`none`) rather than returning `False`. -/
theorem idleChecker_preconditions :
    (∀ th i p, (mkIdleChecker th i p).isSome = true ↔
       (0 ≤ th ∧ th < 100 ∧ 0 ≤ i ∧ 0 ≤ p)) ∧
    (∀ th i p c, mkIdleChecker th i p = some c →
       ∀ (cb : Int → Bool) (now : Int), c.is_idle cb now = none) := by
  constructor
  · intro th i p
    unfold mkIdleChecker
    split_ifs with h1 h2 h3 <;> simp <;> omega
  · intro th i p c h cb now
    unfold mkIdleChecker at h
    split_ifs at h
    cases h
    rfl

/-- Witness for C9: threshold 50 with delays 2 and 1 constructs
successfully, the fresh checker aborts on `is_idle`, and threshold 120
fails construction. -/
theorem idleChecker_preconditions_witness :
    mkIdleChecker 50 2 1 = some ⟨2, 1, 50, none⟩ ∧
    IdleChecker.is_idle ⟨2, 1, 50, none⟩ (fun _ => true) 0 = none ∧
    (mkIdleChecker 120 0 0).isSome = false :=
  ⟨rfl,
   idleChecker_preconditions.2 50 2 1 ⟨2, 1, 50, none⟩ rfl (fun _ => true) 0,
   by decide⟩

/-- Claim C7: `Runner.location` is a pure function that, for all
non-negative `close_after` and `timeout`, returns the base URL
`http://127.0.0.1:<port>/<path>` followed (only when at least one directive
applies) by a query string whose directives appear in the fixed order
`close_after`, `forced_close=0`, `timeout`, each present only when its
source value is non-default, with `timeout` in milliseconds — and in
particular the two example URLs of the spec. -/
theorem location_format :
    (∀ (path : String) (port : Nat) (ca : Option Int) (fc : Bool)
       (tmo : Option Int),
       (∀ c, ca = some c → 0 ≤ c) → (∀ t, tmo = some t → 0 ≤ t) →
       Runner.location path port ca fc tmo
         = some (locationSpec path port ca fc tmo)) ∧
    Runner.location "/x" 8080 = some "http://127.0.0.1:8080/x" ∧
    Runner.location "/x" 8080 (some 5) false (some 2)
      = some "http://127.0.0.1:8080/x?close_after=5&forced_close=0&timeout=2000" := by
  refine ⟨?_, by decide, by decide⟩
  intro path port ca fc tmo hca htm
  cases ca with
  | none =>
    cases tmo with
    | none => cases fc <;> simp [Runner.location, locationSpec]
    | some t =>
      have ht := htm t rfl
      cases fc <;> simp [Runner.location, locationSpec, ht]
  | some c =>
    have hc := hca c rfl
    cases tmo with
    | none => cases fc <;> simp [Runner.location, locationSpec, hc]
    | some t =>
      have ht := htm t rfl
      cases fc <;> simp [Runner.location, locationSpec, hc, ht]

/-- Witness for C7: the general format equation applied at the spec's
second example input. -/
theorem location_format_witness :
    Runner.location "/x" 8080 (some 5) false (some 2)
      = some (locationSpec "/x" 8080 (some 5) false (some 2)) :=
  location_format.1 "/x" 8080 (some 5) false (some 2)
    (fun c hc => by cases hc; decide) (fun t ht => by cases ht; decide)

/-- Claim C8: in non-verbose mode `LogOutputLimiter.ready` returns true
exactly when the current iteration has reached the next doubling-schedule
iteration threshold, or the launch count has reached the launch threshold,
or the wall-clock time since the last fire has reached the configured
delay; every firing resets the time anchor and sets the launch threshold to
`launches + 1` (and an iteration-firing multiplies the iteration threshold
by the multiplier); with default settings (`delay=300`, `multiplier=2`)
`ready(1,*)` and `ready(2,*)` are true while `ready(3,*)` is false when the
launch and time conditions do not hold. -/
theorem logOutputLimiter_ready_spec :
    (∀ (st : LogOutputLimiter) (ci l : Nat) (now : Int), st.verbose = false →
       (st.ready ci l now).1
         = (decide (st.iterations ≤ ci) || decide (st.launches ≤ l) ||
            decide (st.delay ≤ now - st.time))) ∧
    (∀ (st : LogOutputLimiter) (ci l : Nat) (now : Int), st.verbose = false →
       (st.ready ci l now).1 = true →
       (st.ready ci l now).2.time = now ∧
       (st.ready ci l now).2.launches = l + 1) ∧
    (∀ (st : LogOutputLimiter) (ci l : Nat) (now : Int), st.verbose = false →
       st.iterations ≤ ci →
       (st.ready ci l now).2.iterations = st.iterations * st.multiplier) ∧
    ((mkLogOutputLimiter 300 2 false 0).ready 1 1 0).1 = true ∧
    (((mkLogOutputLimiter 300 2 false 0).ready 1 1 0).2.ready 2 1 0).1 = true ∧
    ((((mkLogOutputLimiter 300 2 false 0).ready 1 1 0).2.ready 2 1 0).2.ready 3 1 0).1
      = false := by
  refine ⟨?_, ?_, ?_, by decide, by decide, by decide⟩
  · intro st ci l now hv
    unfold LogOutputLimiter.ready
    rw [if_neg (by simp [hv])]
    split_ifs <;> simp_all <;> omega
  · intro st ci l now hv hr
    unfold LogOutputLimiter.ready at hr ⊢
    rw [if_neg (by simp [hv])] at hr ⊢
    split_ifs at hr ⊢ <;> simp_all
  · intro st ci l now hv hi
    unfold LogOutputLimiter.ready
    rw [if_neg (by simp [hv]), if_pos hi]
    simp

/-- Witness for C8: the general clauses applied at a concrete non-verbose
state where the iteration threshold fires. -/
theorem logOutputLimiter_ready_spec_witness :
    ((mkLogOutputLimiter 300 2 false 0).verbose = false) ∧
    ((mkLogOutputLimiter 300 2 false 0).ready 3 7 50).1
      = (decide ((mkLogOutputLimiter 300 2 false 0).iterations ≤ 3) ||
         decide ((mkLogOutputLimiter 300 2 false 0).launches ≤ 7) ||
         decide ((mkLogOutputLimiter 300 2 false 0).delay ≤ 50 - (mkLogOutputLimiter 300 2 false 0).time)) ∧
    ((mkLogOutputLimiter 300 2 false 0).ready 3 7 50).2.time = 50 ∧
    ((mkLogOutputLimiter 300 2 false 0).ready 3 7 50).2.launches = 8 ∧
    ((mkLogOutputLimiter 300 2 false 0).ready 3 7 50).2.iterations = 1 * 2 :=
  ⟨rfl,
   logOutputLimiter_ready_spec.1 (mkLogOutputLimiter 300 2 false 0) 3 7 50 rfl,
   (logOutputLimiter_ready_spec.2.1 (mkLogOutputLimiter 300 2 false 0) 3 7 50 rfl (by decide)).1,
   (logOutputLimiter_ready_spec.2.1 (mkLogOutputLimiter 300 2 false 0) 3 7 50 rfl (by decide)).2,
   logOutputLimiter_ready_spec.2.2.1 (mkLogOutputLimiter 300 2 false 0) 3 7 50 rfl (by decide)⟩

/-- Helper: the value of `Runner.run` when the serving step completes. -/
theorem run_ok (r : Runner) (env : RunEnv) (tp : Option String) (cov : Bool)
    (to_ : Bool) (served : List String)
    (h : env.serve = Except.ok (to_, served)) :
    Runner.run r env tp cov =
      { result := Except.ok
          { attempted := decide (env.landingPage ∈ served),
            duration := env.serveDuration,
            initial := r.tests_run == 0, served := served,
            status := statusOfOutcome env.detect, timeout := to_ },
        state := { idle := r.idle.map (fun ic => ic.schedule_poll true env.now),
                   tests_run := if env.landingPage ∈ served then r.tests_run + 1
                                else r.tests_run },
        fs := (match tp with
               | none => [FsEvent.mkdir env.freshDir]
               | some _ => []) ++
              (match tp with
               | none => [FsEvent.rmdir env.freshDir]
               | some _ => []),
        closedTarget := !decide (env.landingPage ∈ served),
        coverageDumped := decide (env.landingPage ∈ served) && cov && !to_ } := by
  unfold Runner.run
  rw [h]
  by_cases hm : env.landingPage ∈ served <;> simp [hm]

/-- Claim C1 counterexample: it is not the case that every `RunResult`
returned by `Runner.run` with `attempted = false` has `status = none`: when
the landing page is not served but `detect_failure` reports a failure, the
result carries `attempted = false` and `status = FAILED`. -/
theorem run_status_counterexample :
    ¬ (∀ (r : Runner) (env : RunEnv) (tp : Option String) (cov : Bool)
         (res : RunResult),
         (Runner.run r env tp cov).result = Except.ok res →
         res.attempted = false → res.status = none) := by
  intro h
  have hc := h ⟨none, 0⟩ c1env none false
      { attempted := false, duration := 0, initial := true,
        served := ["other.html"], status := some RunResult.FAILED,
        timeout := false }
      rfl rfl
  simp [RunResult.FAILED] at hc

/-- Claim C1 (amended): `RunResult.status` is determined solely by the
failure-detection outcome — `FAILED` when detection reports a failure,
`IGNORED` when it reports an ignored failure, `none` otherwise — regardless
of whether the delivery was attempted. -/
theorem run_status_from_detection (r : Runner) (env : RunEnv)
    (tp : Option String) (cov : Bool) (res : RunResult)
    (h : (Runner.run r env tp cov).result = Except.ok res) :
    res.status = statusOfOutcome env.detect := by
  cases hs : env.serve with
  | error e => simp [Runner.run, hs] at h
  | ok v =>
    obtain ⟨to_, served⟩ := v
    rw [run_ok r env tp cov to_ served hs] at h
    simp at h
    rw [← h]

/-- Witness for the amended C1 at a concrete unattempted, failure-classified
run. -/
theorem run_status_from_detection_witness :
    (Runner.run ⟨none, 0⟩ c1env none false).result = Except.ok
      { attempted := false, duration := 0, initial := true,
        served := ["other.html"], status := some RunResult.FAILED,
        timeout := false } ∧
    (RunResult.mk false 0 true ["other.html"] (some RunResult.FAILED) false).status
      = statusOfOutcome c1env.detect :=
  ⟨rfl,
   run_status_from_detection ⟨none, 0⟩ c1env none false
     (RunResult.mk false 0 true ["other.html"] (some RunResult.FAILED) false) rfl⟩

/-- Claim C5: for every `Runner.run` call with `test_path` unset, a fresh
scratch directory is created and removed on every exit path out of the
serving step — on normal return and when serving raises (in which case the
exception propagates after cleanup); for every call with `test_path` set,
`run` creates and removes no directory. -/
theorem run_scratch_dir_lifecycle :
    (∀ (r : Runner) (env : RunEnv) (cov : Bool),
       (Runner.run r env none cov).fs
         = [FsEvent.mkdir env.freshDir, FsEvent.rmdir env.freshDir]) ∧
    (∀ (r : Runner) (env : RunEnv) (p : String) (cov : Bool),
       (Runner.run r env (some p) cov).fs = []) ∧
    (∀ (r : Runner) (env : RunEnv) (cov : Bool) (e : Unit),
       env.serve = Except.error e →
       (Runner.run r env none cov).result = Except.error e ∧
       (Runner.run r env none cov).fs
         = [FsEvent.mkdir env.freshDir, FsEvent.rmdir env.freshDir]) := by
  refine ⟨?_, ?_, ?_⟩
  · intro r env cov
    unfold Runner.run
    cases env.serve with
    | error e => rfl
    | ok v => obtain ⟨to_, served⟩ := v; rfl
  · intro r env p cov
    unfold Runner.run
    cases env.serve with
    | error e => rfl
    | ok v => obtain ⟨to_, served⟩ := v; rfl
  · intro r env cov e h
    unfold Runner.run
    rw [h]
    exact ⟨rfl, rfl⟩

/-- Witness for C5 at a concrete environment whose serving step raises. -/
theorem run_scratch_dir_lifecycle_witness :
    (Runner.run ⟨none, 0⟩
        { now := 0, freshDir := "scratch", serve := Except.error (),
          landingPage := "index.html", detect := FailureOutcome.noFailure,
          serveDuration := 0 } none false).result = Except.error () ∧
    (Runner.run ⟨none, 0⟩
        { now := 0, freshDir := "scratch", serve := Except.error (),
          landingPage := "index.html", detect := FailureOutcome.noFailure,
          serveDuration := 0 } none false).fs
      = [FsEvent.mkdir "scratch", FsEvent.rmdir "scratch"] ∧
    (Runner.run ⟨none, 0⟩ c1env (some "caller") false).fs = [] :=
  ⟨(run_scratch_dir_lifecycle.2.2 ⟨none, 0⟩
      { now := 0, freshDir := "scratch", serve := Except.error (),
        landingPage := "index.html", detect := FailureOutcome.noFailure,
        serveDuration := 0 } false () rfl).1,
   (run_scratch_dir_lifecycle.2.2 ⟨none, 0⟩
      { now := 0, freshDir := "scratch", serve := Except.error (),
        landingPage := "index.html", detect := FailureOutcome.noFailure,
        serveDuration := 0 } false () rfl).2,
   run_scratch_dir_lifecycle.2.1 ⟨none, 0⟩ c1env "caller" false⟩

/-- Helper: when every launch attempt fails with the same error, the launch
loop over `reversed(range(mr))` (for `mr ≥ 1`) makes exactly `mr` attempts,
sleeps `mr - 1` times, and re-raises the error. -/
theorem launchLoop_allFail (e : LaunchErr) (d : Int) :
    ∀ (mr idx : Nat), 1 ≤ mr →
      countAttempts (launchLoop (fun _ => some e) d idx (revRange mr)).1 = mr ∧
      (launchLoop (fun _ => some e) d idx (revRange mr)).2 = some e ∧
      countSleeps (launchLoop (fun _ => some e) d idx (revRange mr)).1 = mr - 1 := by
  intro mr
  induction mr with
  | zero => intro idx h; omega
  | succ n ih =>
    intro idx _
    cases n with
    | zero =>
      cases e <;> simp [revRange, launchLoop, countAttempts, countSleeps]
    | succ m =>
      have hih := ih (idx + 1) (by omega)
      obtain ⟨h1, h2, h3⟩ := hih
      cases e <;>
        simp [revRange, launchLoop, countAttempts, countSleeps,
              List.filter] at h1 h2 h3 ⊢ <;>
        refine ⟨?_, h2, ?_⟩ <;> omega

/-- Claim C2 counterexample: `Runner.launch` does not attempt the target
`max_retries + 1` times.  With `max_retries = 2`, `retry_delay = 0` and
every attempt failing, exactly 2 attempts are made (not 3) before the error
is re-raised; and with `max_retries = 0` no attempt at all is made and no
error is raised — the call returns successfully (resetting the counter)
without ever calling `Target.launch`. -/
theorem launch_attempt_count_counterexample :
    Runner.launch ⟨none, 5⟩ (fun _ => some LaunchErr.targetLaunchError) 2 0
      = some ([LaunchEvent.attempt 0, LaunchEvent.cleanupReport 0,
               LaunchEvent.sleepRetry 0, LaunchEvent.attempt 1],
              Except.error LaunchErr.targetLaunchError) ∧
    countAttempts [LaunchEvent.attempt 0, LaunchEvent.cleanupReport 0,
                   LaunchEvent.sleepRetry 0, LaunchEvent.attempt 1] = 2 ∧
    countAttempts [LaunchEvent.attempt 0, LaunchEvent.cleanupReport 0,
                   LaunchEvent.sleepRetry 0, LaunchEvent.attempt 1] ≠ 2 + 1 ∧
    Runner.launch ⟨none, 5⟩ (fun _ => some LaunchErr.targetLaunchError) 0 0
      = some ([], Except.ok ⟨none, 0⟩) :=
  ⟨rfl, by decide, by decide, rfl⟩

/-- Claim C2 (amended): for every non-negative `retry_delay` and every
`max_retries ≥ 1`, `Runner.launch` attempts to launch the target up to
`max_retries` times (not `max_retries + 1`); both launch-configuration
failures and launch-timeouts are retried, with a `sleep(retry_delay)`
between consecutive attempts (`max_retries - 1` sleeps when all attempts
fail), and on the final attempt the triggering error is re-raised to the
caller; `max_retries = 0` performs no attempt and returns without error.
A launch that returns successfully resets the per-launch test counter to 0,
and a negative `retry_delay` is a precondition violation that aborts. -/
theorem launch_retry_policy :
    (∀ (r : Runner) (e : LaunchErr) (d : Int) (mr : Nat), 0 ≤ d → 1 ≤ mr →
       (Runner.launch r (fun _ => some e) mr d).isSome = true ∧
       (∀ (tr : List LaunchEvent) (res : Except LaunchErr Runner),
          Runner.launch r (fun _ => some e) mr d = some (tr, res) →
          countAttempts tr = mr ∧ res = Except.error e ∧
          countSleeps tr = mr - 1)) ∧
    (∀ (r : Runner) (oracle : Nat → Option LaunchErr) (mr : Nat) (d : Int)
       (tr : List LaunchEvent) (r2 : Runner),
       Runner.launch r oracle mr d = some (tr, Except.ok r2) →
       r2.tests_run = 0) ∧
    (∀ (r : Runner) (oracle : Nat → Option LaunchErr) (mr : Nat) (d : Int),
       d < 0 → Runner.launch r oracle mr d = none) := by
  refine ⟨?_, ?_, ?_⟩
  · intro r e d mr hd hmr
    obtain ⟨h1, h2, h3⟩ := launchLoop_allFail e d mr 0 hmr
    constructor
    · simp [Runner.launch, hd, h2]
    · intro tr res h
      simp [Runner.launch, hd, h2] at h
      obtain ⟨htr, hres⟩ := h
      subst htr
      subst hres
      exact ⟨h1, rfl, h3⟩
  · intro r oracle mr d tr r2 h
    simp only [Runner.launch] at h
    split at h
    · cases ho : (launchLoop oracle d 0 (revRange mr)).2 with
      | none =>
        rw [ho] at h
        simp at h
        rw [← h.2]
      | some e =>
        rw [ho] at h
        simp at h
    · cases h
  · intro r oracle mr d hneg
    simp [Runner.launch, show ¬ 0 ≤ d by omega]

/-- Witness for the amended C2: two always-timing-out attempts with
`max_retries = 2` and `retry_delay = 7` (one sleep, error re-raised), the
counter reset on a first-attempt success, and the abort on a negative
delay. -/
theorem launch_retry_policy_witness :
    countAttempts [LaunchEvent.attempt 0, LaunchEvent.sleepRetry 7,
                   LaunchEvent.attempt 1] = 2 ∧
    countSleeps [LaunchEvent.attempt 0, LaunchEvent.sleepRetry 7,
                 LaunchEvent.attempt 1] = 2 - 1 ∧
    (Runner.mk none 0).tests_run = 0 ∧
    Runner.launch ⟨none, 3⟩ (fun _ => some LaunchErr.targetLaunchTimeout) 2 (-1)
      = none := by
  obtain ⟨h1, h2, h3⟩ :=
    (launch_retry_policy.1 ⟨none, 3⟩ LaunchErr.targetLaunchTimeout 7 2
      (by decide) (by decide)).2
      [LaunchEvent.attempt 0, LaunchEvent.sleepRetry 7, LaunchEvent.attempt 1]
      (Except.error LaunchErr.targetLaunchTimeout) rfl
  exact ⟨h1, h3,
         launch_retry_policy.2.1 ⟨none, 3⟩ (fun _ => none) 1 0
           [LaunchEvent.attempt 0] ⟨none, 0⟩ rfl,
         launch_retry_policy.2.2 ⟨none, 3⟩
           (fun _ => some LaunchErr.targetLaunchTimeout) 2 (-1) (by decide)⟩

/-- Helper: one step of `runSeq`, by `run_ok`. -/
theorem runSeq_cons (r : Runner) (e : OkRunEnv) (rest : List OkRunEnv) :
    runSeq r (e :: rest)
      = { attempted := decide (e.landingPage ∈ e.served),
          duration := e.serveDuration,
          initial := r.tests_run == 0, served := e.served,
          status := statusOfOutcome e.detect, timeout := e.timedOut } ::
        runSeq { idle := r.idle.map (fun ic => ic.schedule_poll true e.now),
                 tests_run := if e.landingPage ∈ e.served then r.tests_run + 1
                              else r.tests_run } rest := by
  simp only [runSeq]
  rw [run_ok r e.toEnv none false e.timedOut e.served rfl]
  rfl

/-- Helper: in a sequence of `Runner.run` calls, the `i`-th result's
`initial` flag equals "the counter was 0 at the start and no earlier result
in the sequence was attempted". -/
theorem runSeq_initial_eq (envs : List OkRunEnv) :
    ∀ (r : Runner) (i : Nat) (res : RunResult),
      (runSeq r envs)[i]? = some res →
      res.initial
        = ((r.tests_run == 0) &&
           ((runSeq r envs).take i).all (fun x => !x.attempted)) := by
  induction envs with
  | nil => intro r i res h; simp [runSeq] at h
  | cons e rest ih =>
    intro r i res hres
    rw [runSeq_cons] at hres ⊢
    cases i with
    | zero =>
      simp only [List.getElem?_cons_zero, Option.some_inj] at hres
      simp [← hres]
    | succ j =>
      simp only [List.getElem?_cons_succ] at hres
      simp only [List.take_succ_cons, List.all_cons]
      rw [ih _ j res hres]
      by_cases hm : e.landingPage ∈ e.served <;> simp [hm, Bool.and_assoc]

/-- Claim C3 counterexample: with "the first attempt since the target was
last (re)launched" read as "the first `run` call since the launch", the
claim is false: after a launch (counter 0), a first call whose delivery is
not attempted leaves the counter at 0, so the second call also returns
`initial = true` although it is not the first call. -/
theorem runSeq_initial_counterexample :
    ¬ (∀ (r : Runner), r.tests_run = 0 → ∀ (envs : List OkRunEnv) (i : Nat)
         (res : RunResult), (runSeq r envs)[i]? = some res →
         (res.initial = true ↔ i = 0)) := by
  intro h
  have h1 := (h ⟨none, 0⟩ rfl c3envs 1
      { attempted := true, duration := 0, initial := true,
        served := ["index.html"], status := none, timeout := false }
      (by decide)).mp rfl
  exact absurd h1 (by decide)

/-- Claim C3 (amended): following a successful `Runner.launch` (which
resets the per-launch counter to 0), a `Runner.run` call returns
`initial = true` iff no earlier call since the launch had its delivery
attempted — the counter counts attempted deliveries, not calls, so
`initial` stays true until some delivery is attempted. -/
theorem runSeq_initial_iff_no_prior_attempt (r : Runner) (h : r.tests_run = 0)
    (envs : List OkRunEnv) (i : Nat) (res : RunResult)
    (hres : (runSeq r envs)[i]? = some res) :
    res.initial = ((runSeq r envs).take i).all (fun x => !x.attempted) := by
  rw [runSeq_initial_eq envs r i res hres, h]
  simp

/-- Witness for the amended C3: the second call of the concrete two-call
sequence (first call unattempted) has `initial = true` because no prior
call was attempted. -/
theorem runSeq_initial_iff_witness :
    (RunResult.mk true 0 true ["index.html"] none false).initial
      = ((runSeq ⟨none, 0⟩ c3envs).take 1).all (fun x => !x.attempted) :=
  runSeq_initial_iff_no_prior_attempt ⟨none, 0⟩ rfl c3envs 1
    (RunResult.mk true 0 true ["index.html"] none false) (by decide)

/-- Helper: result processing never touches the iteration counter. -/
theorem processResultStatus_iteration (s : Session) (x : Option Nat) :
    (processResultStatus s x).1.status.iteration = s.status.iteration := by
  unfold processResultStatus
  split_ifs <;> rfl

/-- Claim C4: in the `Session.run` loop, whenever a delivery is not
attempted: if it is the first attempt since the target launched
(`result.initial`), the session saves target logs to a freshly created
diagnostics directory and raises a fatal `SessionError`, never proceeding
to another iteration (the whole run ends `fatal` no matter what later
iterations would hold); if it is not the first attempt, the session logs
the condition and the loop continues (the step is a `next` step whose trace
holds the log event). -/
theorem session_not_served_handling :
    (∀ (limit : Option Nat) (cov : Bool) (st : Session) (env : IterEnv)
       (envs : List IterEnv) (to_ : Bool) (served : List String),
       env.run.serve = Except.ok (to_, served) →
       env.run.landingPage ∉ served →
       (st.targetClosed && env.launchRaises) = false →
       effTestsRun st = 0 →
       Session.step limit cov st env = StepRes.fatal
         ((SEvent.logNotServed ::
            (if env.testMissingLanding then [SEvent.warnMissingLandingPage]
             else [])) ++
          [SEvent.mkdirLogs env.errDir, SEvent.saveLogs env.errDir]) ∧
       Session.run limit cov st (env :: envs) = SessTermination.fatal
         ((SEvent.logNotServed ::
            (if env.testMissingLanding then [SEvent.warnMissingLandingPage]
             else [])) ++
          [SEvent.mkdirLogs env.errDir, SEvent.saveLogs env.errDir])) ∧
    (∀ (limit : Option Nat) (cov : Bool) (st : Session) (env : IterEnv)
       (to_ : Bool) (served : List String),
       env.run.serve = Except.ok (to_, served) →
       env.run.landingPage ∉ served →
       (st.targetClosed && env.launchRaises) = false →
       effTestsRun st ≠ 0 →
       (match env.remaining with
        | some n => decide (n < 1)
        | none => false) = false →
       limit ≠ some (st.status.iteration + 1) →
       (Session.step limit cov st env).isNext = true ∧
       SEvent.logNotServed ∈ (Session.step limit cov st env).trOf) := by
  constructor
  · intro limit cov st env envs to_ served hserve hnot hlaunch heff
    have hstep : Session.step limit cov st env = StepRes.fatal
        ((SEvent.logNotServed ::
           (if env.testMissingLanding then [SEvent.warnMissingLandingPage]
            else [])) ++
         [SEvent.mkdirLogs env.errDir, SEvent.saveLogs env.errDir]) := by
      cases htc : st.targetClosed with
      | false =>
        have heff2 : st.runner.tests_run = 0 := by
          simpa [effTestsRun, htc] using heff
        simp [Session.step, htc,
              run_ok st.runner env.run none cov to_ served hserve, hnot, heff2]
      | true =>
        have hlr : env.launchRaises = false := by simpa [htc] using hlaunch
        simp [Session.step, htc, hlr,
              run_ok (Runner.mk st.runner.idle 0) env.run none cov to_ served hserve,
              hnot]
    exact ⟨hstep, by simp [Session.run, hstep]⟩
  · intro limit cov st env to_ served hserve hnot hlaunch heff hrem hlim
    cases htc : st.targetClosed with
    | true => exact absurd (by simp [effTestsRun, htc]) heff
    | false =>
      have heff2 : st.runner.tests_run ≠ 0 := by
        simpa [effTestsRun, htc] using heff
      have hbeq : (st.runner.tests_run == 0) = false := by simpa using heff2
      constructor <;>
        simp [Session.step, stepTail, htc,
              run_ok st.runner env.run none cov to_ served hserve, hnot, hbeq,
              hrem, processResultStatus_iteration, hlim, StepRes.isNext,
              StepRes.trOf]

/-- Witness for C4: a concrete not-attempted first iteration ends the run
fatally with the log-saving events; a concrete not-attempted non-first
iteration proceeds to the next iteration with the log event recorded. -/
theorem session_not_served_handling_witness :
    Session.run none false c4stFresh (c4env :: []) = SessTermination.fatal
      [SEvent.logNotServed, SEvent.mkdirLogs "e", SEvent.saveLogs "e"] ∧
    (Session.step none false c4st c4env).isNext = true ∧
    SEvent.logNotServed ∈ (Session.step none false c4st c4env).trOf := by
  refine ⟨?_, ?_, ?_⟩
  · have h := (session_not_served_handling.1 none false c4stFresh c4env [] false []
      rfl (by simp) rfl rfl).2
    simpa [c4env] using h
  · exact (session_not_served_handling.2 none false c4st c4env false []
      rfl (by simp) rfl (by decide) rfl (by decide)).1
  · exact (session_not_served_handling.2 none false c4st c4env false []
      rfl (by simp) rfl (by decide) rfl (by decide)).2

/-- Helper: a `next` result of `stepTail` keeps the iteration counter. -/
theorem stepTail_next_iteration (limit : Option Nat) (stC : Session)
    (env : IterEnv) (status : Option Nat) (tr0 : List SEvent) (st2 : Session)
    (tr : List SEvent) (h : stepTail limit stC env status tr0 = StepRes.next st2 tr) :
    st2.status.iteration = stC.status.iteration := by
  simp only [stepTail] at h
  split at h
  · cases h
  · split at h
    · cases h
    · cases h
      simp [processResultStatus_iteration]

/-- Helper: a `stop` result of `stepTail` keeps the iteration counter, and a
limit-stop arises only from the equality test against `limit`. -/
theorem stepTail_stop_iteration (limit : Option Nat) (stC : Session)
    (env : IterEnv) (status : Option Nat) (tr0 : List SEvent) (why : Bool)
    (st2 : Session) (tr : List SEvent)
    (h : stepTail limit stC env status tr0 = StepRes.stop why st2 tr) :
    st2.status.iteration = stC.status.iteration ∧
    (why = StepRes.hitLimit → limit = some st2.status.iteration) := by
  simp only [stepTail] at h
  split at h
  · cases h
    constructor
    · simp [processResultStatus_iteration]
    · intro hw
      simp [StepRes.replayComplete, StepRes.hitLimit] at hw
  · split at h
    · cases h
      rename_i hlim
      exact ⟨by simp [processResultStatus_iteration], fun _ => hlim⟩
    · cases h

/-- Helper: a `next` step increments the iteration counter by exactly 1. -/
theorem step_next_iteration (limit : Option Nat) (cov : Bool) (st : Session)
    (env : IterEnv) (st2 : Session) (tr : List SEvent)
    (h : Session.step limit cov st env = StepRes.next st2 tr) :
    st2.status.iteration = st.status.iteration + 1 := by
  simp only [Session.step] at h
  split at h
  · cases h
  · split at h
    · cases h
    · split at h
      · cases h
      · rw [stepTail_next_iteration _ _ _ _ _ _ _ h]
        split <;> rfl

/-- Helper: a `stop` step carries the incremented iteration counter, and a
limit-stop arises only from the equality test against `limit`. -/
theorem step_stop_iteration (limit : Option Nat) (cov : Bool) (st : Session)
    (env : IterEnv) (why : Bool) (st2 : Session) (tr : List SEvent)
    (h : Session.step limit cov st env = StepRes.stop why st2 tr) :
    st2.status.iteration = st.status.iteration + 1 ∧
    (why = StepRes.hitLimit → limit = some st2.status.iteration) := by
  simp only [Session.step] at h
  split at h
  · cases h
  · split at h
    · cases h
    · split at h
      · cases h
      · obtain ⟨h1, h2⟩ := stepTail_stop_iteration _ _ _ _ _ _ _ _ h
        refine ⟨?_, h2⟩
        rw [h1]
        split <;> rfl

/-- Claim C10: the iteration-limit stop of `Session.run` is an equality test
against the post-increment iteration counter — whenever the loop stops via
the limit, the final counter exactly equals `iteration_limit`; consequently
any `iteration_limit` at or below the counter's value when `run` is entered
(for example a limit of 0 with the counter starting at 0) never triggers
the limit-based stop, no matter how many iterations execute. -/
theorem session_iteration_limit :
    (∀ (limit : Option Nat) (cov : Bool) (st : Session) (envs : List IterEnv)
       (n : Nat),
       hitLimitIter (Session.run limit cov st envs) = some n →
       limit = some n) ∧
    (∀ (bound : Nat) (cov : Bool) (st : Session) (envs : List IterEnv),
       bound ≤ st.status.iteration →
       isHitLimit (Session.run (some bound) cov st envs) = false) := by
  constructor
  · intro limit cov st envs
    induction envs generalizing st with
    | nil => intro n h; simp [Session.run, hitLimitIter] at h
    | cons env rest ih =>
      intro n h
      simp only [Session.run] at h
      cases hstep : Session.step limit cov st env <;> rw [hstep] at h
      case fatal tr => simp [hitLimitIter] at h
      case launchFailed => simp [hitLimitIter] at h
      case serveError => simp [hitLimitIter] at h
      case stop why st2 tr =>
        cases why with
        | false =>
          simp [hitLimitIter, StepRes.hitLimit] at h
          obtain ⟨h1, h2⟩ := step_stop_iteration limit cov st env false st2 tr hstep
          rw [h2 rfl, h]
        | true =>
          simp [hitLimitIter, StepRes.hitLimit] at h
      case next st2 tr => exact ih st2 n h
  · intro bound cov st envs
    induction envs generalizing st with
    | nil => intro hb; simp [Session.run, isHitLimit, hitLimitIter]
    | cons env rest ih =>
      intro hb
      simp only [Session.run]
      cases hstep : Session.step (some bound) cov st env
      case fatal tr => simp [isHitLimit, hitLimitIter]
      case launchFailed => simp [isHitLimit, hitLimitIter]
      case serveError => simp [isHitLimit, hitLimitIter]
      case stop why st2 tr =>
        cases why with
        | false =>
          exfalso
          obtain ⟨h1, h2⟩ := step_stop_iteration (some bound) cov st env false st2 tr hstep
          have h4 : bound = st2.status.iteration := by
            injection h2 rfl
          omega
        | true =>
          simp [isHitLimit, hitLimitIter, StepRes.hitLimit]
      case next st2 tr =>
        have h1 := step_next_iteration (some bound) cov st env st2 tr hstep
        exact ih st2 (by omega)

/-- Witness for C10: with the counter starting at 0, a limit of 0 does not
stop a concrete run, while a limit of 1 stops it with the counter exactly
equal to the limit. -/
theorem session_iteration_limit_witness :
    isHitLimit (Session.run (some 0) false c10st [c10env]) = false ∧
    (some 1 : Option Nat) = some 1 :=
  ⟨session_iteration_limit.2 0 false c10st [c10env] (by decide),
   session_iteration_limit.1 (some 1) false c10st [c10env] 1 (by decide)⟩
